import Mathlib

/-!
# Verification of the arca-bot workflow orchestrator core

This file is a shallow embedding, in Lean 4, of the parts of the arca-bot
repository that the checked claims are about:

* fingerprint preimage construction (`src/api/models/business/transaction_hash.py`),
* TTL derivation (`src/api/utils/ttl_calculator.py`),
* the step engine (`src/core/orchestrator.py`, `src/core/workflows/base.py`),
* the in-memory transaction store (`src/core/services/transaction_service.py`),
* the intake application service
  (`src/api/application/workflow_application_service.py`),
* the retry sweeper (`src/core/services/retry_service.py`) and the error
  classifier (`src/core/utils/error_classifier.py`),
* the Selenium autoscaler (`src/core/services/selenium_scaler.py`).

Conventions used throughout:

* Python dicts that preserve insertion order are modelled as association
  lists `List (String × _)`; key assignment replaces in place or appends.
* The SHA-256 primitive is abstracted as a parameter `hashFn : String → String`;
  every definition builds the exact preimage string that the source feeds to
  `hashlib.sha256`, and theorems that do not depend on properties of SHA-256
  quantify over `hashFn`.
* Machine-level concerns (real time, network, subprocesses, the event loop)
  appear as explicit data: sequences of observed poll results, boolean results
  of external commands, an integer wall-clock instant.
-/

/-! ## Python value model

Heterogeneous Python values as they occur in the dicts handled by the core:
transaction `request_data` / `results` payloads, recorded error values, and
the in-band `_workflow_result` object that the orchestrator stashes in the
stored request payload.
-/

/-- Exception classes distinguished by `core/utils/error_classifier.py`.
Instances of subclasses are modelled by their base class; the classifier
dispatches with `isinstance`, so only class identity matters. -/
inductive PyExcClass
  | infrastructureException
  | browserSessionException
  | timeoutError
  | connectionRefusedError
  | connectionAbortedError
  | connectionResetError
  | serviceUnavailable
  | sessionNotCreatedException
  | webDriverException
  | noSuchDriverException
  | browserNotConnectedException
  | otherExc (name : String)
  deriving DecidableEq, Repr

/-- `WorkflowStatus` from `core/workflows/base.py`. -/
inductive WStatus
  | created
  | pending
  | running
  | completed
  | failed
  | cancelled
  deriving DecidableEq, Repr

/-- The `.value` attribute of each `WorkflowStatus` member (the enum values
are the lowercase strings in `core/workflows/base.py`). -/
def WStatus.value : WStatus → String
  | .created => "created"
  | .pending => "pending"
  | .running => "running"
  | .completed => "completed"
  | .failed => "failed"
  | .cancelled => "cancelled"

/-- `WorkflowStatus.is_terminal` from `core/workflows/base.py`: membership of
the status string in the three terminal enum values. -/
def WStatus.isTerminal (status : String) : Bool :=
  status == WStatus.completed.value || status == WStatus.failed.value ||
    status == WStatus.cancelled.value

/-- A Python value as stored in the dicts the core manipulates.  The
`wres` constructor models the `WorkflowResult` dataclass object that the
orchestrator stores under the reserved `_workflow_result` key (its `status`
enum member, its `results` dict and its `errors` dict). -/
inductive PyVal
  | pyStr (s : String)
  | pyInt (n : Int)
  | pyBool (b : Bool)
  | pyNone
  | exc (cls : PyExcClass) (msg : String)
  | dict (d : List (String × PyVal))
  | listv (l : List PyVal)
  | wres (status : WStatus) (results : List (String × PyVal))
      (errors : List (String × PyVal))

/-- Python dict read `d.get(k)` / `d[k]` on an insertion-ordered dict with
unique keys: first matching key. -/
def pyGet (d : List (String × PyVal)) (k : String) : Option PyVal :=
  (d.find? (fun p => p.1 == k)).map (·.2)

/-- Dict assignment `d[k] = v`: replace the value in place if the key exists,
otherwise append the new pair. -/
def pySet (d : List (String × PyVal)) (k : String) (v : PyVal) :
    List (String × PyVal) :=
  if d.any (fun p => p.1 == k) then
    d.map (fun p => if p.1 == k then (k, v) else p)
  else
    d ++ [(k, v)]

/-- `{**old, **new}`: shallow dict merge, new keys win, as used by
`TransactionService.update_status` to merge result payloads. -/
def pyDictMerge (old new : List (String × PyVal)) : List (String × PyVal) :=
  new.foldl (fun acc p => pySet acc p.1 p.2) old

/-! ## Fingerprinting (`src/api/models/business/transaction_hash.py`)

Each function below builds exactly the `hash_data` string that the source
passes to `hashlib.sha256(...).hexdigest()`.  The hash itself is an abstract
`hashFn` parameter where needed.
-/

/-- `CCMAEntry` (`src/api/models/requests/ccma_entry.py`).  The two optional
fields are `Optional[str]` (pydantic default `None`); the rest are required
strings, and `include_interests` a boolean defaulting to false. -/
structure CCMAEntry where
  period_from : String
  period_to : String
  calculation_date : String
  form_payment : String
  expiration_date : String
  taxpayer_type : Option String := none
  tax_type : Option String := none
  include_interests : Bool := false
  deriving DecidableEq, Repr

/-- Python truthiness of an `Optional[str]` field: present and non-empty. -/
def optTruthy : Option String → Bool
  | some s => s ≠ ""
  | none => false

/-- The preimage built by `generate_ccma_entry_hash`: the three mandatory
fields, then each of `taxpayer_type`, `tax_type`, `form_payment`,
`expiration_date` appended (pipe-prefixed) only when truthy, in that order. -/
def ccmaEntryHashData (e : CCMAEntry) : String :=
  e.period_from ++ "|" ++ e.period_to ++ "|" ++ e.calculation_date
    ++ (match e.taxpayer_type with
        | some t => if t ≠ "" then "|" ++ t else ""
        | none => "")
    ++ (match e.tax_type with
        | some t => if t ≠ "" then "|" ++ t else ""
        | none => "")
    ++ (if e.form_payment ≠ "" then "|" ++ e.form_payment else "")
    ++ (if e.expiration_date ≠ "" then "|" ++ e.expiration_date else "")

/-- The per-entry string built inside `generate_ccma_workflow_hash`: the five
fields `period_from|period_to|calculation_date|form_payment|expiration_date`
unconditionally, then `taxpayer_type` and `tax_type` appended only when
truthy. -/
def ccmaWorkflowEntryData (e : CCMAEntry) : String :=
  e.period_from ++ "|" ++ e.period_to ++ "|" ++ e.calculation_date
    ++ "|" ++ e.form_payment ++ "|" ++ e.expiration_date
    ++ (match e.taxpayer_type with
        | some t => if t ≠ "" then "|" ++ t else ""
        | none => "")
    ++ (match e.tax_type with
        | some t => if t ≠ "" then "|" ++ t else ""
        | none => "")

/-- `Credentials` (`src/api/models/requests/credentials.py`): a CUIT plus an
optional password. -/
structure Credentials where
  cuit : String
  password : Option String := none
  deriving DecidableEq, Repr

/-- `CCMAWorkflowRequest`: credentials plus the ordered entry list. -/
structure CCMARequest where
  credentials : Credentials
  entries : List CCMAEntry
  deriving DecidableEq, Repr

/-- Stable insertion of a string into an ascending list (insert before the
first strictly greater element, after equal ones). -/
def insortAfterEq (a : String) : List String → List String
  | [] => [a]
  | b :: rest => if a ≤ b then a :: b :: rest else b :: insortAfterEq a rest

/-- Python `sorted` on a list of strings: ascending lexicographic order,
stable.  Implemented as a stable insertion sort so that it evaluates inside
the kernel. -/
def pySorted : List String → List String
  | [] => []
  | x :: rest => insortAfterEq x (pySorted rest)

/-- Python `sep.join(parts)`. -/
def pyJoin (sep : String) : List String → String
  | [] => ""
  | [x] => x
  | x :: rest => x ++ sep ++ pyJoin sep rest

/-- The preimage built by `generate_ccma_workflow_hash`:
`credentials.cuit` then the pipe-join of the lexicographically sorted
per-entry strings (Python `sorted` on strings). -/
def ccmaWorkflowHashData (r : CCMARequest) : String :=
  r.credentials.cuit ++ "|" ++
    pyJoin "|" (pySorted (r.entries.map ccmaWorkflowEntryData))

/-- A decimal number standing for the Python `float` carried by
`DDJJEntry.amount`.  The value is `mant / 10 ^ dec`; amounts are validated
`gt=0` so `mant` is a natural number here. -/
structure PyDecimal where
  mant : Nat
  dec : Nat
  deriving DecidableEq, Repr

/-- Strip trailing zero decimals from a significand/scale pair. -/
def stripTrailingZeros (m : Nat) : Nat → Nat × Nat
  | 0 => (m, 0)
  | d + 1 => if m % 10 = 0 then stripTrailingZeros (m / 10) d else (m, d + 1)

/-- Normalise by stripping trailing zero decimals (`10500 / 10^2 → 105 / 10^0`),
mirroring that `float("105.00") == float("105.0")`. -/
def PyDecimal.normalize (x : PyDecimal) : PyDecimal :=
  let p := stripTrailingZeros x.mant x.dec
  ⟨p.1, p.2⟩

/-- Modelled from CPython `str()` on a float holding a short decimal value:
the shortest decimal representation, which for an integer-valued float is the
integer digits followed by `.0`, and otherwise the digits with the trailing
zeros stripped (e.g. `str(105.0) == "105.0"`, `str(105.5) == "105.5"`).
This models exactly the repr of floats written as short decimal literals,
which is what the validated `amount` field carries. -/
def pyFloatStr (x : PyDecimal) : String :=
  let n := x.normalize
  if n.dec = 0 then
    toString n.mant ++ ".0"
  else
    let digits := toString n.mant
    let digits :=
      if digits.length ≤ n.dec then
        String.mk (List.replicate (n.dec + 1 - digits.length) '0') ++ digits
      else digits
    let k := digits.length - n.dec
    (digits.take k) ++ "." ++ (digits.drop k)

/-- `DDJJEntry` (`src/api/models/requests/ddjj_entry.py`); `amount` is the
float field, everything else validated strings. -/
structure DDJJEntry where
  form_payment : String
  expiration_date : String
  form_number : String
  payment_type_code : String
  cuit : String
  concept : String
  sub_concept : String
  fiscal_period : String
  amount : PyDecimal
  tax_code : String
  deriving DecidableEq, Repr

/-- The preimage built by `generate_ddjj_entry_hash`: an f-string pipe-join in
which `amount` is interpolated with Python default float formatting. -/
def ddjjEntryHashData (e : DDJJEntry) : String :=
  e.cuit ++ "|" ++ e.concept ++ "|" ++ e.sub_concept ++ "|" ++ e.fiscal_period
    ++ "|" ++ pyFloatStr e.amount ++ "|" ++ e.tax_code
    ++ "|" ++ e.expiration_date ++ "|" ++ e.form_number ++ "|"
    ++ e.payment_type_code

/-- Modelled from the spec: the fixed two-fraction-digit rendering claimed by
the specification for floating-point fields ("formatted with a fixed decimal
form (two fraction digits)", e.g. 105 rendered as "105.00").  Used only to
compare against what the source actually produces. -/
def specTwoDecimalStr (x : PyDecimal) : String :=
  let cents := x.mant * 100 / 10 ^ x.dec
  toString (cents / 100) ++ "." ++
    (if cents % 100 < 10 then "0" else "") ++ toString (cents % 100)

/-! ## TTL derivation (`src/api/utils/ttl_calculator.py`)

Dates and datetimes are modelled as whole seconds since the Unix epoch (an
`Int`).  `_parse_date` is embedded so that it returns `some t` exactly when
the source's try-block produces a naive datetime usable in the subtraction;
the aware-datetime case (ISO strings carrying `Z` or an offset) raises
`TypeError` on subtraction from the naive `datetime.now()` and is caught by
the same handler as a parse failure, so it is modelled as `none`.
-/

/-- Days from the civil epoch 1970-01-01 (standard days-from-civil
computation on the proleptic Gregorian calendar). -/
def daysFromCivil (y : Int) (m d : Nat) : Int :=
  let y := if m ≤ 2 then y - 1 else y
  let era : Int := (if 0 ≤ y then y else y - 399) / 400
  let yoe : Int := y - era * 400
  let mp : Int := ((m : Int) + 9) % 12
  let doy : Int := (153 * mp + 2) / 5 + (d : Int) - 1
  let doe : Int := yoe * 365 + yoe / 4 - yoe / 100 + doy
  era * 146097 + doe - 719468

/-- Leap year test of the Gregorian calendar (as used by `datetime`). -/
def isLeapYear (y : Nat) : Bool :=
  (y % 4 = 0 && y % 100 ≠ 0) || y % 400 = 0

/-- Days in a month, as validated by `datetime(year, month, day)`. -/
def daysInMonth (y m : Nat) : Nat :=
  if m = 2 then (if isLeapYear y then 29 else 28)
  else if m = 4 || m = 6 || m = 9 || m = 11 then 30
  else 31

/-- Split the character list at every occurrence of the separator. -/
def splitCharAux (c : Char) : List Char → List Char → List String
  | [], acc => [String.mk acc.reverse]
  | x :: rest, acc =>
    if x == c then String.mk acc.reverse :: splitCharAux c rest []
    else splitCharAux c rest (x :: acc)

/-- `s.split(c)` for a one-character separator, matching `String.splitOn`
(and Python `str.split`) on such separators. -/
def splitOnChar (c : Char) (s : String) : List String :=
  splitCharAux c s.data []

/-- Character membership (`c in s`). -/
def strContainsChar (s : String) (c : Char) : Bool :=
  s.data.any (fun x => x == c)

/-- A digit group of the expected size range whose characters are all digits,
per the `_strptime` regular expressions (`%d`/`%m`: one or two digits,
`%Y`: exactly four digits). -/
def digitGroup (lo hi : Nat) (s : String) : Option Nat :=
  if lo ≤ s.data.length && s.data.length ≤ hi && !s.data.isEmpty
      && s.data.all Char.isDigit then
    some (s.data.foldl (fun acc c => acc * 10 + (c.toNat - 48)) 0)
  else none

/-- Validate a (year, month, day) triple the way the `datetime` constructor
does, and convert it to epoch seconds at midnight. -/
def civilToEpoch (y m d : Nat) : Option Int :=
  if 1 ≤ y && y ≤ 9999 && 1 ≤ m && m ≤ 12 && 1 ≤ d && d ≤ daysInMonth y m then
    some (daysFromCivil (y : Int) m d * 86400)
  else none

/-- `datetime.strptime(s, "%d/%m/%Y")`. -/
def strptimeSlash (s : String) : Option Int :=
  match splitOnChar '/' s with
  | [d, m, y] => do
      let dn ← digitGroup 1 2 d
      let mn ← digitGroup 1 2 m
      let yn ← digitGroup 4 4 y
      civilToEpoch yn mn dn
  | _ => none

/-- `datetime.strptime(s, "%Y-%m-%d")`. -/
def strptimeDash (s : String) : Option Int :=
  match splitOnChar '-' s with
  | [y, m, d] => do
      let yn ← digitGroup 4 4 y
      let mn ← digitGroup 1 2 m
      let dn ← digitGroup 1 2 d
      civilToEpoch yn mn dn
  | _ => none

/-- `datetime.fromisoformat` on a naive ISO string `YYYY-MM-DD[THH:MM[:SS]]`
(two-digit clock fields, as accepted before the 3.11 relaxations). -/
def fromIsoNaive (s : String) : Option Int :=
  match splitOnChar 'T' s with
  | [d] => strptimeDash d
  | [d, t] => do
      let base ← strptimeDash d
      match splitOnChar ':' t with
      | [h, mi] => do
          let hn ← digitGroup 2 2 h
          let mn ← digitGroup 2 2 mi
          if hn ≤ 23 && mn ≤ 59 then
            some (base + (hn : Int) * 3600 + (mn : Int) * 60)
          else none
      | [h, mi, se] => do
          let hn ← digitGroup 2 2 h
          let mn ← digitGroup 2 2 mi
          let sn ← digitGroup 2 2 se
          if hn ≤ 23 && mn ≤ 59 && sn ≤ 59 then
            some (base + (hn : Int) * 3600 + (mn : Int) * 60 + (sn : Int))
          else none
      | _ => none
  | _ => none

/-- `_parse_date` from `src/api/utils/ttl_calculator.py`, composed with the
subtraction from naive `datetime.now()`: `some t` when the try-block yields a
usable naive datetime `t` (epoch seconds), `none` when it ends in the
`(ValueError, TypeError)` handler.  Strings containing `+` or `Z` parse to
aware datetimes whose subtraction from a naive datetime raises `TypeError`,
hence `none`. -/
def pyParseDate (s : String) : Option Int :=
  if strContainsChar s 'T' || strContainsChar s '+' || strContainsChar s 'Z' then
    if strContainsChar s '+' || strContainsChar s 'Z' then none
    else fromIsoNaive s
  else if strContainsChar s '/' then strptimeSlash s
  else strptimeDash s

/-- `calculate_ttl_from_entry_expiration`: for a truthy expiration date that
parses, `max(seconds_remaining, 300)`; otherwise the 3600-second default.
`now` is the whole-second value of `datetime.now()`. -/
def calculate_ttl_from_entry_expiration (expiration_date : String)
    (now : Int) : Int :=
  if expiration_date ≠ "" then
    match pyParseDate expiration_date with
    | some expDt => max (expDt - now) 300
    | none => 3600
  else 3600

/-! ## Step engine (`src/core/orchestrator.py`, `src/core/workflows/base.py`)

A workflow is its insertion-ordered step table.  Step handlers are
synchronous callables returning a truthy/falsy result or raising; a handler
is modelled by the outcome of each attempt (`Nat → HandlerOutcome`).  Handler
writes to the shared-resource bag are not modelled (no checked claim inspects
the results allow-list copy).
-/

/-- The outcome of one handler invocation: truthy return, falsy return, or a
raised exception with its message. -/
inductive HandlerOutcome
  | success
  | failure
  | raises (msg : String)
  deriving Repr

/-- `StepStatus` from `core/workflows/base.py`. -/
inductive StepStatus
  | pending
  | running
  | completed
  | failed
  | skipped
  deriving DecidableEq, Repr

/-- A `WorkflowStep` definition: name, dependencies, per-step retry budget
(source default 3), `required` flag (source default true) and the handler. -/
structure StepDef where
  name : String
  depends_on : List String := []
  retry_count : Nat := 3
  required : Bool := true
  handler : Nat → HandlerOutcome

/-- A step together with its transient execution state (`status`, `error`). -/
structure StepRun where
  sdef : StepDef
  status : StepStatus := .pending
  error : Option String := none

/-- The `WorkflowResult` dataclass fields the engine fills in. -/
structure EngineResult where
  status : WStatus
  steps_completed : Nat := 0
  steps_failed : Nat := 0
  total_steps : Nat := 0
  results : List (String × PyVal) := []
  errors : List (String × String) := []

/-- One full pass of the inner `for step_name, step in self.steps.items()`
loop of `BaseWorkflow.get_step_execution_order`: append every not-yet-executed
step whose dependencies are all executed.  The executed set and the execution
order receive the same appends, so a single ordered list serves as both. -/
def orderPass (steps : List StepDef) (executed : List String) : List String :=
  steps.foldl
    (fun exec s =>
      if s.name ∈ exec then exec
      else if s.depends_on.all (fun dep => dep ∈ exec) then exec ++ [s.name]
      else exec)
    executed

/-- The error message raised on a stalled pass. -/
def cyclicDepMsg : String := "Circular dependency detected in workflow steps"

/-- The `while len(executed) < len(self.steps)` loop of
`get_step_execution_order`: run passes until all steps are ordered, raising
(`Except.error`) when a pass makes no progress. -/
def orderLoop (steps : List StepDef) (executed : List String) :
    Except String (List String) :=
  if _h : executed.length < steps.length then
    if _h2 : executed.length < (orderPass steps executed).length then
      orderLoop steps (orderPass steps executed)
    else .error cyclicDepMsg
  else .ok executed
  termination_by steps.length - executed.length
  decreasing_by
    omega

/-- `BaseWorkflow.get_step_execution_order`. -/
def get_step_execution_order (steps : List StepDef) : Except String (List String) :=
  orderLoop steps []

/-- The `for attempt in range(step.retry_count)` loop of
`WorkflowOrchestrator._execute_step`, with `remaining` attempts left and the
current attempt index `i`.  `none` means the range was empty and the loop
never ran (the step is then left in RUNNING state); otherwise the final
status and recorded error string are returned.  The traceback appended to the
error message in the source is not representable and is omitted. -/
def runAttempts (handler : Nat → HandlerOutcome) (i : Nat) :
    Nat → Option (StepStatus × Option String)
  | 0 => none
  | remaining + 1 =>
    match handler i with
    | .success => some (.completed, none)
    | .failure =>
      if remaining = 0 then
        some (.failed, some "Step handler returned False")
      else runAttempts handler (i + 1) remaining
    | .raises msg =>
      if remaining = 0 then
        some (.failed, some ("Step execution error: " ++ msg))
      else runAttempts handler (i + 1) remaining

/-- Look up a step by name (`workflow.steps[name]` on the insertion-ordered
dict). -/
def lookupStep (steps : List StepRun) (name : String) : Option StepRun :=
  steps.find? (fun sr => sr.sdef.name == name)

/-- Replace the state of the named step. -/
def setStep (steps : List StepRun) (name : String) (sr : StepRun) :
    List StepRun :=
  steps.map (fun old => if old.sdef.name == name then sr else old)

/-- `WorkflowOrchestrator._should_skip_step`: some dependency that is present
in the step table is FAILED and required. -/
def shouldSkipStep (steps : List StepRun) (sr : StepRun) : Bool :=
  sr.sdef.depends_on.any (fun dep =>
    match lookupStep steps dep with
    | some depStep => depStep.status == .failed && depStep.sdef.required
    | none => false)

/-- `WorkflowOrchestrator._execute_step` on one step: enter RUNNING, then run
the attempt loop. -/
def executeStep (sr : StepRun) : StepRun :=
  match runAttempts sr.sdef.handler 0 sr.sdef.retry_count with
  | none => { sr with status := .running, error := none }
  | some (st, err) => { sr with status := st, error := err }

/-- The `for step_name in execution_order` loop of
`WorkflowOrchestrator.execute_workflow`: skip-check, execute, and break when
a required step failed.  Returns the final step table and the counts of
completed and failed steps accumulated into the result. -/
def runOrder (order : List String) (steps : List StepRun)
    (completed failed : Nat) : List StepRun × Nat × Nat :=
  match order with
  | [] => (steps, completed, failed)
  | name :: rest =>
    match lookupStep steps name with
    | none => runOrder rest steps completed failed
    | some sr =>
      if shouldSkipStep steps sr then
        runOrder rest (setStep steps name { sr with status := .skipped })
          completed failed
      else
        let done := executeStep sr
        let steps := setStep steps name done
        let completed :=
          if done.status = .completed then completed + 1 else completed
        let failed := if done.status = .failed then failed + 1 else failed
        if done.status = .failed && done.sdef.required then
          (steps, completed, failed)
        else runOrder rest steps completed failed

/-- `WorkflowOrchestrator.execute_workflow` (the synchronous engine): order
the steps, run them, derive the final status from the count of failed
required steps, and collect per-step errors; a raised ordering error is
caught and recorded under the `orchestrator` key with status FAILED. -/
def execute_workflow (steps : List StepDef) : EngineResult × List StepRun :=
  let fresh := steps.map (fun s => { sdef := s : StepRun })
  match get_step_execution_order steps with
  | .error e =>
    ({ status := .failed, total_steps := steps.length,
       errors := [("orchestrator", e)] }, fresh)
  | .ok order =>
    let (finalSteps, completed, failed) := runOrder order fresh 0 0
    let failedRequired := finalSteps.countP
      (fun sr => sr.status = .failed ∧ sr.sdef.required = true)
    let status : WStatus := if 0 < failedRequired then .failed else .completed
    let stepErrors := finalSteps.filterMap
      (fun sr => sr.error.map (fun e => (sr.sdef.name, e)))
    ({ status := status, steps_completed := completed, steps_failed := failed,
       total_steps := steps.length, errors := stepErrors }, finalSteps)

/-! ## Transaction store (`src/core/services/transaction_service.py`)

The in-process fallback backend (`self._transactions`), the one the service
uses when Redis is disabled: an insertion-ordered map from storage key to the
record dict.  JSON serialisation of the Redis backend is not modelled; the
spec declares the two backends semantically identical.
-/

/-- A stored transaction record, with the fields `create_transaction` writes
plus the fields other operations may add (`results`, `updated_at`).  The
top-level `retry_count` field is read with default 0 by the retry sweeper and
is never written by any code path, hence `Option`. -/
structure Txn where
  status : String
  transaction_hash : String
  exchange_id : String
  created_at : String
  request_data : List (String × PyVal)
  ttl_seconds : Int
  results : Option (List (String × PyVal)) := none
  retry_count : Option Nat := none
  updated_at : Option String := none

/-- The store: `exchange_id → record`, insertion ordered. -/
abbrev Store := List (String × Txn)

/-- Observable store operations, recorded so that theorems can speak about
which writes an intake run performed. -/
inductive StoreOp
  | createOp (key txnHash : String) (ttl : Int)
  | updateOp (key status : String)
  deriving DecidableEq, Repr

/-- Record lookup (`self._transactions.get(exchange_id)`), used by
`get_transaction`. -/
def get_transaction (store : Store) (exchange_id : String) : Option Txn :=
  (store.find? (fun p => p.1 == exchange_id)).map (·.2)

/-- `check_duplicate` on the memory backend: scan for the first record whose
`transaction_hash` field equals the fingerprint; no side effects. -/
def check_duplicate (store : Store) (transaction_hash : String) :
    Option String :=
  (store.find? (fun p => p.2.transaction_hash == transaction_hash)).map (·.1)

/-- Dict assignment on the store. -/
def storeSet (store : Store) (key : String) (t : Txn) : Store :=
  if store.any (fun p => p.1 == key) then
    store.map (fun p => if p.1 == key then (key, t) else p)
  else store ++ [(key, t)]

/-- `create_transaction` on the memory backend: unconditionally assign the
freshly built record dict; always succeeds. -/
def create_transaction (store : Store) (exchange_id transaction_hash : String)
    (request_data : List (String × PyVal)) (ttl_seconds : Int)
    (nowStr : String) : Bool × Store :=
  (true,
    storeSet store exchange_id
      { status := WStatus.created.value,
        transaction_hash := transaction_hash,
        exchange_id := exchange_id,
        created_at := nowStr,
        request_data := request_data,
        ttl_seconds := ttl_seconds })

/-- `update_status` on the memory backend: if the record exists, overwrite
`status`, shallow-merge the optional `results` payload over the existing one
(new keys win) and stamp `updated_at`; report `false` when absent. -/
def update_status (store : Store) (exchange_id status : String)
    (results : Option (List (String × PyVal))) (nowStr : String) :
    Bool × Store :=
  match get_transaction store exchange_id with
  | none => (false, store)
  | some t =>
    let t := { t with status := status, updated_at := some nowStr }
    let t :=
      match results with
      | some res =>
        { t with results := some (pyDictMerge (t.results.getD []) res) }
      | none => t
    (true, storeSet store exchange_id t)

/-! ## Intake application service
(`src/api/application/workflow_application_service.py`)

`execute_ccma_workflow`, embedded over the memory store.  External effects
are parameters: `hashFn` for SHA-256, `pwService` for the credential
resolver, `spawnOk i` for the result of the i-th
`orchestrator.execute_workflow_async` call, `newUuid` for the generated
`uuid4`, `now`/`nowStr` for the clock.  The returned trace lists the store
writes the run performed, in order.
-/

/-- The error outcomes `execute_ccma_workflow` can raise. -/
inductive IntakeError
  | duplicateTransaction (existing_exchange_id : String)
  | passwordServiceNotAvailable
  | passwordNotFound
  | transactionCreation
  | workflowStartup
  deriving DecidableEq, Repr

/-- `CCMAEntryStatus` (response item): the echoed entry fields, its hash, the
`new`/`duplicate` classification and the reported existing workflow id. -/
structure CCMAEntryStatus where
  period_from : String
  period_to : String
  calculation_date : String
  taxpayer_type : Option String
  tax_type : Option String
  transaction_hash : String
  status : String
  existing_exchange_id : Option String
  deriving DecidableEq, Repr

/-- `CCMAWorkflowExecutionResponse`. -/
structure CCMAResponse where
  exchange_id : Option String
  processed_entries : List CCMAEntryStatus
  duplicate_entries : List CCMAEntryStatus
  total_entries : Nat
  processed_count : Nat
  duplicate_count : Nat
  deriving DecidableEq, Repr

/-- Characters removed by Python `str.strip()`. -/
def isPySpace (c : Char) : Bool :=
  c == ' ' || c == '\t' || c == '\n' || c == '\r' || c == '\x0b' || c == '\x0c'

/-- Python `str.strip()`. -/
def pyStrip (s : String) : String :=
  String.mk (((s.data.dropWhile isPySpace).reverse.dropWhile isPySpace).reverse)

/-- `WorkflowApplicationService._resolve_password`: a provided password that
strips to non-empty wins; otherwise consult the resolver, surfacing
service-unavailable or not-found. -/
def resolvePassword (pwService : Option (String → Option String))
    (cuit : String) (provided : Option String) : Except IntakeError String :=
  match provided with
  | some p =>
    if pyStrip p ≠ "" then .ok (pyStrip p)
    else match pwService with
      | none => .error .passwordServiceNotAvailable
      | some svc =>
        match svc cuit with
        | some pw => .ok pw
        | none => .error .passwordNotFound
  | none =>
    match pwService with
    | none => .error .passwordServiceNotAvailable
    | some svc =>
      match svc cuit with
      | some pw => .ok pw
      | none => .error .passwordNotFound

/-- `WorkflowApplicationService._get_existing_workflow_uuid`: `None` for a
falsy id; otherwise read `request_data["workflow_exchange_id"]` from the
record stored under that id, falling back to the current workflow id. -/
def getExistingWorkflowUuid (store : Store) (existingId : Option String)
    (currentId : String) : Option String :=
  match existingId with
  | none => none
  | some id =>
    if id = "" then none
    else
      match get_transaction store id with
      | some t =>
        match pyGet t.request_data "workflow_exchange_id" with
        | some (.pyStr s) => if s ≠ "" then some s else some currentId
        | _ => some currentId
      | none => some currentId

/-- `entry.dict()`: the pydantic field dict stored inside `request_data`. -/
def ccmaEntryDict (e : CCMAEntry) : List (String × PyVal) :=
  [("period_from", .pyStr e.period_from),
   ("period_to", .pyStr e.period_to),
   ("calculation_date", .pyStr e.calculation_date),
   ("form_payment", .pyStr e.form_payment),
   ("expiration_date", .pyStr e.expiration_date),
   ("taxpayer_type", match e.taxpayer_type with
     | some t => .pyStr t
     | none => .pyNone),
   ("tax_type", match e.tax_type with
     | some t => .pyStr t
     | none => .pyNone),
   ("include_interests", .pyBool e.include_interests)]

/-- The per-entry duplicate classification loop of `execute_ccma_workflow`:
hash each entry, consult the pre-existing store (the loop performs no
writes), and split into processed (new) and duplicate lists. -/
def classifyEntries (hashFn : String → String) (store : Store)
    (currentId : String) (entries : List CCMAEntry) :
    List CCMAEntryStatus × List CCMAEntryStatus :=
  entries.foldl
    (fun (acc : List CCMAEntryStatus × List CCMAEntryStatus) e =>
      let h := hashFn (ccmaEntryHashData e)
      let existing := check_duplicate store h
      let entryStatus : CCMAEntryStatus :=
        { period_from := e.period_from, period_to := e.period_to,
          calculation_date := e.calculation_date,
          taxpayer_type := e.taxpayer_type, tax_type := e.tax_type,
          transaction_hash := h,
          status := if existing.isSome then "duplicate" else "new",
          existing_exchange_id :=
            getExistingWorkflowUuid store existing currentId }
      match existing with
      | some _ => (acc.1, acc.2 ++ [entryStatus])
      | none => (acc.1 ++ [entryStatus], acc.2))
    ([], [])

/-- The transaction-creation loop: for each new entry, create a record keyed
by its own entry hash, carrying the entry dict and the workflow id, with the
entry-specific TTL. -/
def createEntryTransactions (hashFn : String → String) (store : Store)
    (trace : List StoreOp) (exchangeId : String) (now : Int) (nowStr : String) :
    List CCMAEntry → Store × List StoreOp
  | [] => (store, trace)
  | e :: rest =>
    let ttl := calculate_ttl_from_entry_expiration e.expiration_date now
    let h := hashFn (ccmaEntryHashData e)
    let rd : List (String × PyVal) :=
      [("entry", .dict (ccmaEntryDict e)),
       ("workflow_exchange_id", .pyStr exchangeId)]
    let (_ok, store) := create_transaction store h h rd ttl nowStr
    createEntryTransactions hashFn store (trace ++ [.createOp h h ttl])
      exchangeId now nowStr rest

/-- `execute_ccma_workflow`.  Returns the outcome, the final store and the
trace of store writes. -/
def execute_ccma_workflow (hashFn : String → String)
    (pwService : Option (String → Option String)) (spawnOk : Nat → Bool)
    (req : CCMARequest) (newUuid : String) (now : Int) (nowStr : String)
    (store : Store) : Except IntakeError CCMAResponse × Store × List StoreOp :=
  let workflowHash := hashFn (ccmaWorkflowHashData req)
  match check_duplicate store workflowHash with
  | some existingId => (.error (.duplicateTransaction existingId), store, [])
  | none =>
    match resolvePassword pwService req.credentials.cuit
        req.credentials.password with
    | .error e => (.error e, store, [])
    | .ok _password =>
      let (processed, duplicates) :=
        classifyEntries hashFn store newUuid req.entries
      if processed.isEmpty then
        (.ok { exchange_id := none, processed_entries := processed,
               duplicate_entries := duplicates,
               total_entries := req.entries.length, processed_count := 0,
               duplicate_count := duplicates.length }, store, [])
      else
        let newEntries :=
          ((req.entries.zip processed).filter
            (fun p => p.2.status == "new")).map (·.1)
        let (store, trace) :=
          createEntryTransactions hashFn store [] newUuid now nowStr newEntries
        let startedCount :=
          (List.range newEntries.length).countP (fun i => spawnOk i)
        if startedCount = 0 then
          let (_ok, store) :=
            update_status store newUuid WStatus.failed.value none nowStr
          (.error .workflowStartup, store,
            trace ++ [.updateOp newUuid WStatus.failed.value])
        else
          let (_ok, store) :=
            update_status store newUuid WStatus.running.value none nowStr
          (.ok { exchange_id := some newUuid, processed_entries := processed,
                 duplicate_entries := duplicates,
                 total_entries := req.entries.length,
                 processed_count := processed.length,
                 duplicate_count := duplicates.length }, store,
            trace ++ [.updateOp newUuid WStatus.running.value])

/-! ## Completion monitor
(`WorkflowApplicationService._monitor_workflow_completion`)

The polling loop exits when the record's status is terminal; what the claims
are about is the terminal processing that follows, embedded here as a
function of the record observed after the loop.  `process_vep_results`
performs file I/O and is passed in abstractly. -/

/-- What the monitor does once the record is terminal: the business-outcome
metric it records (`record_ccma_result` / `record_ddjj_result` as a
`(kind, outcome)` pair) and the `update_status` call it performs. -/
structure MonitorOutcome where
  metric : Option (String × String)
  update : Option (String × List (String × PyVal))

/-- The terminal-processing tail of `_monitor_workflow_completion`: infer the
workflow kind from the payload keys, then branch on the embedded
`_workflow_result` object, comparing `workflow_result.status.value` against
the literal `"COMPLETED"` exactly as the source does; fall back to the
`_workflow_error` sentinel. -/
def monitorTerminal (processVep : List (String × PyVal) → List (String × PyVal))
    (t : Txn) : MonitorOutcome :=
  let rd := t.request_data
  let workflowType :=
    if (pyGet rd "cuit").isSome && (pyGet rd "period_from").isSome then "ccma"
    else "ddjj"
  match pyGet rd "_workflow_result" with
  | some (.wres status results errors) =>
    if status.value == "COMPLETED" then
      { metric := some (workflowType, "success"),
        update := some (WStatus.completed.value, processVep results) }
    else
      { metric := some (workflowType, "failed"),
        update := some (WStatus.failed.value, [("errors", .dict errors)]) }
  | _ =>
    match pyGet rd "_workflow_error" with
    | some (.pyStr msg) =>
      { metric := none,
        update := some (WStatus.failed.value,
          [("errors", .dict [("workflow_error", .pyStr msg)])]) }
    | _ => { metric := none, update := none }

/-! ## Error classifier (`src/core/utils/error_classifier.py`) -/

/-- `is_retryable_error`: dispatch on the exception class. -/
def is_retryable_error : PyExcClass → Bool
  | .infrastructureException => true
  | .browserSessionException => true
  | .timeoutError => true
  | .connectionRefusedError => true
  | .connectionAbortedError => true
  | .connectionResetError => true
  | .serviceUnavailable => true
  | .sessionNotCreatedException => true
  | .webDriverException => true
  | .noSuchDriverException => true
  | .browserNotConnectedException => true
  | .otherExc _ => false

mutual

/-- `has_retryable_error` over the values of an errors dict
(`errors.values()` iteration). -/
def hasRetryableDictB : List (String × PyVal) → Bool
  | [] => false
  | (_, v) :: rest => hasRetryableDetail v || hasRetryableDictB rest

/-- One `error_detail` value: a retryable exception, a dict checked
recursively, or a list whose items are checked; anything else is not
retryable. -/
def hasRetryableDetail : PyVal → Bool
  | .exc cls _ => is_retryable_error cls
  | .dict inner => hasRetryableDictB inner
  | .listv items => hasRetryableListB items
  | _ => false

/-- Iteration over a list-valued error detail. -/
def hasRetryableListB : List PyVal → Bool
  | [] => false
  | item :: rest => hasRetryableListElem item || hasRetryableListB rest

/-- One item of a list-valued error detail: a retryable exception or a dict
checked recursively; nested lists are not descended into (the source only
recurses on dict items here). -/
def hasRetryableListElem : PyVal → Bool
  | .exc cls _ => is_retryable_error cls
  | .dict inner => hasRetryableDictB inner
  | _ => false

end

/-- `has_retryable_error`: an empty dict is not retryable, otherwise scan the
values. -/
def has_retryable_error (errors : List (String × PyVal)) : Bool :=
  hasRetryableDictB errors

/-! ## Retry sweeper (`src/core/services/retry_service.py`) -/

/-- The errors dict the eligibility check inspects:
`transaction_data.get("results", {}).get("errors", {})`.  A non-dict value
under `errors` would make the Python iteration raise (aborting the sweep);
the records built in this development always store a dict there. -/
def txnErrors (t : Txn) : List (String × PyVal) :=
  match pyGet (t.results.getD []) "errors" with
  | some (.dict d) => d
  | _ => []

/-- `RetryService._is_transaction_retryable`: FAILED status, top-level
`retry_count` (default 0) below `max_retries`, and some recorded retryable
error. -/
def _is_transaction_retryable (t : Txn) (max_retries : Nat) : Bool :=
  t.status == WStatus.failed.value &&
    decide (t.retry_count.getD 0 < max_retries) &&
    has_retryable_error (txnErrors t)

/-- `RetryService._get_retryable_transactions_memory`: scan the whole store.
Returns the eligible `(exchange_id, record)` pairs in store order. -/
def get_retryable_transactions (store : Store) (max_retries : Nat) :
    List (String × Txn) :=
  store.filter (fun p => _is_transaction_retryable p.2 max_retries)

/-- `RetryService._infer_workflow_type`: look for CCMA or DDJJ indicators
under the `data` key of the stored request payload. -/
def _infer_workflow_type (rd : List (String × PyVal)) : Option String :=
  match pyGet rd "data" with
  | some (.dict d) =>
    if (pyGet d "period_from").isSome then some "ccma_workflow"
    else if (pyGet d "entries").isSome then some "ddjj_workflow"
    else none
  | _ => none

/-- `RetryService.retry_transaction`: read the record, compute
`retry_count + 1` from the top-level field, call `update_status` with status
PENDING and a `{"retry_count": k+1}` results payload (which `update_status`
merges into the `results` dict), then infer the workflow type and re-submit.
`spawnSucceeds` is the result of `execute_workflow_async`. -/
def retry_transaction (store : Store) (exchange_id : String)
    (spawnSucceeds : Bool) (nowStr : String) : Bool × Store :=
  match get_transaction store exchange_id with
  | none => (false, store)
  | some t =>
    let newCount := t.retry_count.getD 0 + 1
    let (_ok, store) := update_status store exchange_id WStatus.pending.value
      (some [("retry_count", .pyInt (newCount : Int))]) nowStr
    match _infer_workflow_type t.request_data with
    | none => (false, store)
    | some _workflowType =>
      if spawnSucceeds then (true, store) else (false, store)

/-- `RetryService.process_retryable_transactions`: sweep the store and retry
every eligible record, accumulating `(total_found, retry_initiated,
retry_failed)`. -/
def process_retryable_transactions (store : Store) (max_retries : Nat)
    (spawnSucceeds : Bool) (nowStr : String) :
    (Nat × Nat × Nat) × Store :=
  let eligible := get_retryable_transactions store max_retries
  let (initiated, failedCount, store) :=
    eligible.foldl
      (fun (acc : Nat × Nat × Store) p =>
        let (ok, store) := retry_transaction acc.2.2 p.1 spawnSucceeds nowStr
        if ok then (acc.1 + 1, acc.2.1, store) else (acc.1, acc.2.1 + 1, store))
      (0, 0, store)
  ((eligible.length, initiated, failedCount), store)

/-! ## Selenium autoscaler (`src/core/services/selenium_scaler.py`)

The docker-compose control-plane invocation and the hub status probe are
external effects, passed in as the boolean result of the scale command and
the sequence of hub responses observed by the readiness poll loop (one entry
per 2-second poll inside the 30-second window; `none` is a failed probe,
otherwise the availability strings of the registered nodes).
-/

/-- Scaler configuration (source defaults: 0 / 3 / 2). -/
structure ScalerConfig where
  min_nodes : Nat := 0
  max_nodes : Nat := 3
  sessions_per_node : Nat := 2
  deriving DecidableEq, Repr

/-- `SeleniumScaler._wait_for_nodes_ready`: succeed as soon as one poll
within the window reports at least `expected` non-DOWN nodes; report failure
when the window is exhausted. -/
def waitForNodesReady (polls : List (Option (List String)))
    (expected : Nat) : Bool :=
  polls.any (fun poll =>
    match poll with
    | some nodes => decide (expected ≤ (nodes.filter (fun a => a ≠ "DOWN")).length)
    | none => false)

/-- `SeleniumScaler.scale_up`: cap the target at `max_nodes`; a no-op when
already at or above target; otherwise run the compose command and, when it
succeeds, update `current_nodes` and run the readiness wait — whose result
the source discards — then return success. -/
def scale_up (cfg : ScalerConfig) (current count : Nat) (composeOk : Bool)
    (polls : List (Option (List String))) : Bool × Nat :=
  let target := min (current + count) cfg.max_nodes
  if target ≤ current then (true, current)
  else if composeOk then
    let _ready := waitForNodesReady polls target
    (true, target)
  else (false, current)

/-- `SeleniumScaler.ensure_capacity`: `nodes_needed = ceil(sessions_needed /
sessions_per_node)` capped at `max_nodes`; scale up by the delta when above
`current_nodes`, otherwise report sufficient capacity. -/
def ensure_capacity (cfg : ScalerConfig) (current sessions_needed : Nat)
    (composeOk : Bool) (polls : List (Option (List String))) : Bool × Nat :=
  let nodes_needed :=
    min ((sessions_needed + cfg.sessions_per_node - 1) / cfg.sessions_per_node)
      cfg.max_nodes
  if current < nodes_needed then
    scale_up cfg current (nodes_needed - current) composeOk polls
  else (true, current)

/-! ## Concrete instances used to instantiate the theorems -/

/-- A valid W-A entry carrying both optional critical fields. -/
def entryWithOpts : CCMAEntry :=
  { period_from := "01/2023", period_to := "12/2025",
    calculation_date := "15/09/2025", form_payment := "qr",
    expiration_date := "31/12/2025", taxpayer_type := some "Monotributo",
    tax_type := some "IVA" }

/-- A valid W-A entry without the optional critical fields. -/
def entryPlain : CCMAEntry :=
  { period_from := "01/2023", period_to := "12/2025",
    calculation_date := "15/09/2025", form_payment := "qr",
    expiration_date := "31/12/2025" }

/-- A second plain W-A entry sharing all critical fields with `entryPlain`
(it differs only in the non-critical `include_interests` flag). -/
def entryPlainTwin : CCMAEntry :=
  { period_from := "01/2023", period_to := "12/2025",
    calculation_date := "15/09/2025", form_payment := "qr",
    expiration_date := "31/12/2025", include_interests := true }

/-- A valid W-B (DDJJ) entry whose amount is the integral float 105. -/
def ddjjEntry105 : DDJJEntry :=
  { form_payment := "qr", expiration_date := "2025-12-31",
    form_number := "1571", payment_type_code := "33", cuit := "27120017808",
    concept := "19", sub_concept := "19", fiscal_period := "202412",
    amount := { mant := 105, dec := 0 }, tax_code := "24" }

/-- A terminal transaction record whose request payload carries an embedded
step-engine result with status COMPLETED (the situation of the monitor
claim). -/
def completedRunTxn : Txn :=
  { status := WStatus.completed.value, transaction_hash := "wfhash",
    exchange_id := "run-1", created_at := "t0",
    request_data :=
      [("entry", .dict []), ("workflow_exchange_id", .pyStr "run-1"),
       ("_workflow_result", .wres .completed [("payment_url", .pyStr "u")] [])],
    ttl_seconds := 3600 }

/-- A FAILED record with `retry_count` still at its absent/0 default and one
recorded retryable (timeout) error, as left behind by a failed run. -/
def failedRetryableTxn : Txn :=
  { status := WStatus.failed.value, transaction_hash := "txh",
    exchange_id := "ex1", created_at := "t0",
    request_data :=
      [("credentials",
          .dict [("cuit", .pyStr "20429994323"), ("password", .pyStr "p")]),
       ("data", .dict [("period_from", .pyStr "01/2023")])],
    ttl_seconds := 3600,
    results := some [("errors", .dict [("login", .exc .timeoutError "t")])] }

/-- A store holding just the failed retryable record. -/
def failedRetryableStore : Store := [("ex1", failedRetryableTxn)]

/-- One sweeper-pass-then-fail-again cycle on the record `ex1`: the sweeper
retries it successfully (the relaunch is accepted), and the relaunched run
fails again, marking the record FAILED (as the orchestrator error path
does, with no results payload). -/
def retryFailCycle (store : Store) : Store :=
  let store := (retry_transaction store "ex1" true "t1").2
  (update_status store "ex1" WStatus.failed.value none "t2").2

/-- An intake request for one plain entry. -/
def reqPlain : CCMARequest :=
  { credentials := { cuit := "20429994323", password := some "p" },
    entries := [entryPlain] }

/-- A store already holding a record for the workflow fingerprint of
`reqPlain` (fingerprints are taken with `hashFn = id` in the witnesses). -/
def storeWithWorkflowDup : Store :=
  [("prev-run",
    { status := WStatus.running.value,
      transaction_hash := ccmaWorkflowHashData reqPlain,
      exchange_id := "prev-run", created_at := "t0",
      request_data := [], ttl_seconds := 3600 })]

/-- An intake request carrying two entries with identical critical fields. -/
def reqTwinEntries : CCMARequest :=
  { credentials := { cuit := "20429994323", password := some "p" },
    entries := [entryPlain, entryPlainTwin] }

/-- The two-step cyclic workflow A→B, B→A (handlers never reached). -/
def cyclicSteps : List StepDef :=
  [{ name := "A", depends_on := ["B"], handler := fun _ => .success },
   { name := "B", depends_on := ["A"], handler := fun _ => .success }]

/-- The cyclic successor of an index into a nonempty list. -/
def nextIdx {n : Nat} (i : Fin n) : Fin n :=
  ⟨(i.val + 1) % n, Nat.mod_lt _ (Nat.lt_of_le_of_lt (Nat.zero_le _) i.isLt)⟩

/-! ## Theorems -/

/-- Auxiliary: appending the empty string is the identity. -/
lemma string_append_empty (s : String) : s ++ "" = s := by
  cases s
  simp [String.append]

/-- **C7**: for every expiration-date string that parses, the computed TTL is
the larger of the seconds remaining until that date and 300 — in particular
any date in the past yields exactly 300 — and an empty or unparseable
expiration date yields the 3600-second default. -/
theorem C7_entry_ttl_clamp_and_default (s : String) (now : Int) :
    (∀ d, pyParseDate s = some d →
      calculate_ttl_from_entry_expiration s now = max (d - now) 300
        ∧ (d < now → calculate_ttl_from_entry_expiration s now = 300))
    ∧ (pyParseDate s = none →
        calculate_ttl_from_entry_expiration s now = 3600) := by
  constructor
  · intro d hd
    have hs : s ≠ "" := by
      intro h
      rw [h] at hd
      have h0 : pyParseDate "" = none := by decide
      rw [h0] at hd
      cases hd
    constructor
    · simp [calculate_ttl_from_entry_expiration, hs, hd]
    · intro hlt
      simp [calculate_ttl_from_entry_expiration, hs, hd]
      omega
  · intro hd
    by_cases hs : s = ""
    · simp [calculate_ttl_from_entry_expiration, hs]
    · simp [calculate_ttl_from_entry_expiration, hs, hd]

/-- Witness for C7 at the concrete past date 01/01/2020 observed from a
clock instant in 2025: the TTL is clamped to exactly 300. -/
theorem C7_entry_ttl_clamp_and_default_witness :
    pyParseDate "01/01/2020" = some 1577836800
    ∧ calculate_ttl_from_entry_expiration "01/01/2020" 1757926800 = 300 := by
  have h : pyParseDate "01/01/2020" = some 1577836800 := by decide
  exact ⟨h,
    ((C7_entry_ttl_clamp_and_default "01/01/2020" 1757926800).1 1577836800 h).2
      (by decide)⟩

/-- **C5** counterexample: on a valid W-A entry carrying `taxpayer_type` and
`tax_type`, the canonical form hashed by `generate_ccma_entry_hash` and the
per-entry canonical form built inside `generate_ccma_workflow_hash` are
different strings (the optional fields are placed before `form_payment` and
`expiration_date` in the former, after them in the latter). -/
theorem C5_counterexample :
    ccmaEntryHashData entryWithOpts ≠ ccmaWorkflowEntryData entryWithOpts := by
  decide

/-- **C5** amended: the entry-fingerprint form follows the order
`period_from|period_to|calculation_date[|taxpayer_type][|tax_type][|form_payment][|expiration_date]`
while the workflow per-entry form is
`period_from|period_to|calculation_date|form_payment|expiration_date[|taxpayer_type][|tax_type]`;
on every entry whose optional `taxpayer_type` and `tax_type` are absent or
empty (given the always-valid nonempty mandatory `form_payment` and
`expiration_date`) the two canonical forms are the same string, and they can
differ when an optional field is present (`C5_counterexample`). -/
theorem C5_amended_forms_agree_without_optionals (e : CCMAEntry)
    (htt : optTruthy e.taxpayer_type = false)
    (htx : optTruthy e.tax_type = false)
    (hfp : e.form_payment ≠ "") (hed : e.expiration_date ≠ "") :
    ccmaEntryHashData e = ccmaWorkflowEntryData e := by
  rcases e with ⟨pf, pt, cd, fp, ed, tt, tx, ii⟩
  simp only at htt htx hfp hed
  have htt2 : tt = none ∨ tt = some "" := by
    cases tt with
    | none => exact Or.inl rfl
    | some t =>
      simp only [optTruthy, decide_eq_false_iff_not, not_not] at htt
      exact Or.inr (by rw [htt])
  have htx2 : tx = none ∨ tx = some "" := by
    cases tx with
    | none => exact Or.inl rfl
    | some t =>
      simp only [optTruthy, decide_eq_false_iff_not, not_not] at htx
      exact Or.inr (by rw [htx])
  rcases htt2 with h1 | h1 <;> rcases htx2 with h2 | h2 <;> subst h1 <;> subst h2 <;>
    simp [ccmaEntryHashData, ccmaWorkflowEntryData, hfp, hed,
      string_append_empty, String.append_assoc]

/-- Witness for the amended C5 on a concrete plain entry. -/
theorem C5_amended_forms_agree_without_optionals_witness :
    ccmaEntryHashData entryPlain = ccmaWorkflowEntryData entryPlain :=
  C5_amended_forms_agree_without_optionals entryPlain (by decide) (by decide)
    (by decide) (by decide)

/-- **C8** counterexample: on a valid W-B entry with amount 105, the
pipe-joined entry-hash preimage renders the amount as `105.0` (Python
default float formatting), not in a fixed two-fraction-digit form `105.00`
as the claim states. -/
theorem C8_counterexample :
    ddjjEntryHashData ddjjEntry105
      = "27120017808|19|19|202412|105.0|24|2025-12-31|1571|33"
    ∧ pyFloatStr ddjjEntry105.amount ≠ specTwoDecimalStr ddjjEntry105.amount
    ∧ specTwoDecimalStr ddjjEntry105.amount = "105.00" := by
  refine ⟨by decide, by decide, by decide⟩

/-- **C8** amended: the amount field is interpolated with Python default
float-to-string conversion, so an integral amount `n` appears as `n.0` in
the preimage (e.g. 105 appears as `105.0`), not with two fraction digits. -/
theorem C8_amended_amount_rendered_with_default_float_str (e : DDJJEntry)
    (h : e.amount.dec = 0) :
    ddjjEntryHashData e
      = e.cuit ++ "|" ++ e.concept ++ "|" ++ e.sub_concept ++ "|"
        ++ e.fiscal_period ++ "|" ++ (toString e.amount.mant ++ ".0") ++ "|"
        ++ e.tax_code ++ "|" ++ e.expiration_date ++ "|" ++ e.form_number
        ++ "|" ++ e.payment_type_code := by
  rcases e with ⟨fp, ed, fn, ptc, cuit, con, sub, fis, ⟨m, d⟩, tax⟩
  simp only at h
  subst h
  rfl

/-- Witness for the amended C8 at the concrete 105-amount entry. -/
theorem C8_amended_amount_rendered_with_default_float_str_witness :
    ddjjEntryHashData ddjjEntry105
      = "27120017808" ++ "|" ++ "19" ++ "|" ++ "19" ++ "|" ++ "202412" ++ "|"
        ++ (toString (105 : Nat) ++ ".0") ++ "|" ++ "24" ++ "|"
        ++ "2025-12-31" ++ "|" ++ "1571" ++ "|" ++ "33" :=
  C8_amended_amount_rendered_with_default_float_str ddjjEntry105 rfl

/-- **C9** counterexample: with the default scaler configuration, zero
current nodes and one session needed, a successful compose command but a
readiness window in which the hub never reports a non-DOWN node,
`ensure_capacity` still returns success, although the readiness wait timed
out — refuting the claim that a readiness timeout makes `ensure_capacity`
return failure. -/
theorem C9_counterexample :
    (ensure_capacity {} 0 1 true [some []]).1 = true
      ∧ waitForNodesReady [some []] 1 = false := by
  refine ⟨by decide, by decide⟩

/-- **C9** amended: whenever `ensure_capacity` must scale up
(`nodes_needed = ceil(sessions_needed / sessions_per_node)` capped at
`max_nodes` exceeds `current_nodes`), its success is exactly the success of
the control-plane scale command; the 30-second readiness wait is performed
but its outcome is discarded and does not affect the returned value. -/
theorem C9_amended_success_iff_compose_ok (cfg : ScalerConfig)
    (current sessions : Nat) (composeOk : Bool)
    (polls : List (Option (List String)))
    (h : current <
      min ((sessions + cfg.sessions_per_node - 1) / cfg.sessions_per_node)
        cfg.max_nodes) :
    (ensure_capacity cfg current sessions composeOk polls).1 = composeOk := by
  have h2 :
      min ((sessions + cfg.sessions_per_node - 1) / cfg.sessions_per_node)
        cfg.max_nodes ≤ cfg.max_nodes := min_le_right _ _
  unfold ensure_capacity scale_up
  simp only [if_pos h]
  have h3 : min (current +
      (min ((sessions + cfg.sessions_per_node - 1) / cfg.sessions_per_node)
        cfg.max_nodes - current)) cfg.max_nodes
      = min ((sessions + cfg.sessions_per_node - 1) / cfg.sessions_per_node)
        cfg.max_nodes := by omega
  rw [h3]
  have h4 : ¬ (min ((sessions + cfg.sessions_per_node - 1) /
      cfg.sessions_per_node) cfg.max_nodes ≤ current) := by omega
  rw [if_neg h4]
  cases composeOk <;> simp

/-- Witness for the amended C9: scale-up needed, compose succeeds,
`ensure_capacity` reports success. -/
theorem C9_amended_success_iff_compose_ok_witness :
    (ensure_capacity {} 0 1 true []).1 = true :=
  C9_amended_success_iff_compose_ok {} 0 1 true [] (by decide)

/-- The monitor can only ever write a FAILED terminal status: the success
branch compares the enum value (always lowercase) against the uppercase
literal `"COMPLETED"`, so it is unreachable for every status. -/
lemma monitorTerminal_update_always_failed
    (processVep : List (String × PyVal) → List (String × PyVal)) (t : Txn)
    (u : String × List (String × PyVal))
    (h : (monitorTerminal processVep t).update = some u) :
    u.1 = WStatus.failed.value := by
  unfold monitorTerminal at h
  dsimp only at h
  split at h
  · rename_i status results errors heq
    have hst : (status.value == "COMPLETED") = false := by
      cases status <;> rfl
    rw [hst] at h
    simp only [Bool.false_eq_true, if_false] at h
    cases h
    rfl
  · split at h
    · simp only at h
      cases h
      rfl
    · simp only at h
      cases h

/-- **C2** (the code at the failing input): a terminal record whose request
payload embeds a step-engine result with status COMPLETED makes the monitor
record a *failure* business outcome and write status FAILED with the raw
errors dict — not status COMPLETED with the processed results envelope and a
success outcome as the claim states: the source compares
`workflow_result.status.value` (the lowercase `"completed"`) against the
literal `"COMPLETED"`, which never matches. -/
theorem C2_monitor_mishandles_completed_result :
    (monitorTerminal id completedRunTxn).update
      = some (WStatus.failed.value, [("errors", .dict [])])
    ∧ (monitorTerminal id completedRunTxn).metric = some ("ddjj", "failed")
    ∧ WStatus.completed.value ≠ "COMPLETED" := by
  refine ⟨rfl, rfl, by decide⟩

/-- **C3** (the code at the failing input): a FAILED record with a recorded
retryable error and stored retry count 0 stays eligible forever.  One
sweeper pass succeeds and sets the status to PENDING, but the incremented
count is merged into `results["retry_count"]` while the eligibility check
reads the top-level `retry_count` field, which stays absent; after three
full retry-and-fail-again cycles the top-level field is still absent, the
nested counter is still 1, and `_is_transaction_retryable` still accepts the
record with `max_retries = 3`.  A single sweep reports stats (1, 1, 0). -/
theorem C3_retry_count_update_and_check_use_different_fields :
    (retry_transaction failedRetryableStore "ex1" true "t1").1 = true
    ∧ (get_transaction (retry_transaction failedRetryableStore "ex1" true
        "t1").2 "ex1").map (fun t => t.status)
        = some WStatus.pending.value
    ∧ (get_transaction
        (retryFailCycle (retryFailCycle (retryFailCycle failedRetryableStore)))
        "ex1").map (fun t => t.retry_count) = some none
    ∧ (get_transaction
        (retryFailCycle (retryFailCycle (retryFailCycle failedRetryableStore)))
        "ex1").map (fun t => pyGet (t.results.getD []) "retry_count")
        = some (some (.pyInt 1))
    ∧ (get_transaction
        (retryFailCycle (retryFailCycle (retryFailCycle failedRetryableStore)))
        "ex1").map (fun t => _is_transaction_retryable t 3) = some true
    ∧ (process_retryable_transactions failedRetryableStore 3 true "t1").1
        = (1, 1, 0) := by
  exact ⟨rfl, rfl, rfl, rfl, rfl, rfl⟩

/-- **C4**: for every intake request whose workflow fingerprint is already
mapped to a run id in the store, `execute_ccma_workflow` raises
`DuplicateTransactionError` carrying that existing run id, the store is
returned unchanged, and the trace of performed store writes is empty (no
record creation, no index write, no status update). -/
theorem C4_workflow_duplicate_raises_without_side_effects
    (hashFn : String → String) (pwService : Option (String → Option String))
    (spawnOk : Nat → Bool) (req : CCMARequest) (newUuid : String) (now : Int)
    (nowStr : String) (store : Store) (existingId : String)
    (h : check_duplicate store (hashFn (ccmaWorkflowHashData req))
      = some existingId) :
    execute_ccma_workflow hashFn pwService spawnOk req newUuid now nowStr store
      = (.error (.duplicateTransaction existingId), store, []) := by
  simp only [execute_ccma_workflow, h]

/-- Witness for C4: a concrete store already holding the workflow
fingerprint of the request under run id `prev-run`. -/
theorem C4_workflow_duplicate_raises_without_side_effects_witness :
    execute_ccma_workflow id none (fun _ => true) reqPlain "uuid-1" 0 "t0"
        storeWithWorkflowDup
      = (.error (.duplicateTransaction "prev-run"), storeWithWorkflowDup, []) :=
  C4_workflow_duplicate_raises_without_side_effects id none (fun _ => true)
    reqPlain "uuid-1" 0 "t0" storeWithWorkflowDup "prev-run" (by decide)

/-- **C10**: for a single intake request with two entries sharing the same
critical fields (the same entry-hash preimage) whose common fingerprint —
and whose workflow fingerprint — is absent from the store, both entries are
classified as new (per-entry duplicate detection consults only the
pre-existing store, never the other entries of the same request), and
`create_transaction` is invoked twice with the same storage key and the same
fingerprint. -/
theorem C10_identical_entries_both_classified_new
    (hashFn : String → String) (pwService : Option (String → Option String))
    (spawnOk : Nat → Bool) (creds : Credentials) (e1 e2 : CCMAEntry)
    (newUuid : String) (now : Int) (nowStr : String) (store : Store)
    (hsame : ccmaEntryHashData e1 = ccmaEntryHashData e2)
    (hwf : check_duplicate store
      (hashFn (ccmaWorkflowHashData { credentials := creds, entries := [e1, e2] }))
      = none)
    (hent : check_duplicate store (hashFn (ccmaEntryHashData e1)) = none)
    (hpw : ∃ pw, resolvePassword pwService creds.cuit creds.password = .ok pw)
    (hspawn : spawnOk 0 = true) :
    (∃ resp,
      (execute_ccma_workflow hashFn pwService spawnOk
        { credentials := creds, entries := [e1, e2] } newUuid now nowStr
        store).1 = .ok resp
      ∧ resp.processed_entries.map (fun st => st.status) = ["new", "new"]
      ∧ resp.duplicate_entries = []
      ∧ resp.exchange_id = some newUuid)
    ∧ (execute_ccma_workflow hashFn pwService spawnOk
        { credentials := creds, entries := [e1, e2] } newUuid now nowStr
        store).2.2
      = [.createOp (hashFn (ccmaEntryHashData e1))
           (hashFn (ccmaEntryHashData e1))
           (calculate_ttl_from_entry_expiration e1.expiration_date now),
         .createOp (hashFn (ccmaEntryHashData e1))
           (hashFn (ccmaEntryHashData e1))
           (calculate_ttl_from_entry_expiration e2.expiration_date now),
         .updateOp newUuid WStatus.running.value] := by
  obtain ⟨pw, hpw⟩ := hpw
  have hent2 : check_duplicate store (hashFn (ccmaEntryHashData e2)) = none := by
    rw [← hsame]; exact hent
  have hcls : classifyEntries hashFn store newUuid [e1, e2]
      = ([{ period_from := e1.period_from, period_to := e1.period_to,
            calculation_date := e1.calculation_date,
            taxpayer_type := e1.taxpayer_type, tax_type := e1.tax_type,
            transaction_hash := hashFn (ccmaEntryHashData e1),
            status := "new", existing_exchange_id := none },
          { period_from := e2.period_from, period_to := e2.period_to,
            calculation_date := e2.calculation_date,
            taxpayer_type := e2.taxpayer_type, tax_type := e2.tax_type,
            transaction_hash := hashFn (ccmaEntryHashData e2),
            status := "new", existing_exchange_id := none }], []) := by
    simp [classifyEntries, hent, hent2, getExistingWorkflowUuid]
  simp only [execute_ccma_workflow, hwf, hpw, hcls]
  simp only [List.isEmpty_cons, List.zip_cons_cons, List.zip_nil_right,
    List.filter, List.map, beq_self_eq_true, if_true, Bool.false_eq_true,
    if_false]
  simp only [createEntryTransactions, create_transaction, List.nil_append,
    List.cons_append, List.append_nil]
  have hcount : ((List.range ([e1, e2].length)).countP fun i => spawnOk i) ≠ 0 := by
    simp only [List.length_cons, List.length_nil]
    have : List.range 2 = [0, 1] := by decide
    rw [this]
    simp [List.countP_cons, hspawn]
  simp only [List.length_cons, List.length_nil] at hcount ⊢
  simp only [hcount, if_false, hsame]
  refine ⟨⟨_, rfl, rfl, rfl, rfl⟩, trivial⟩

/-- Witness for C10: two concrete entries differing only in the non-critical
`include_interests` flag, an empty store, fingerprints taken with the
identity hash: both are created under the same key and fingerprint. -/
theorem C10_identical_entries_both_classified_new_witness :
    (execute_ccma_workflow id none (fun _ => true)
      { credentials := { cuit := "20429994323", password := some "p" },
        entries := [entryPlain, entryPlainTwin] } "uuid-1" 1757926800 "t0"
      []).2.2
    = [.createOp (ccmaEntryHashData entryPlain) (ccmaEntryHashData entryPlain)
         (calculate_ttl_from_entry_expiration entryPlain.expiration_date
           1757926800),
       .createOp (ccmaEntryHashData entryPlain) (ccmaEntryHashData entryPlain)
         (calculate_ttl_from_entry_expiration entryPlainTwin.expiration_date
           1757926800),
       .updateOp "uuid-1" WStatus.running.value] := by
  have h := C10_identical_entries_both_classified_new id none (fun _ => true)
    { cuit := "20429994323", password := some "p" } entryPlain entryPlainTwin
    "uuid-1" 1757926800 "t0" [] (by decide) (by decide) (by decide)
    ⟨"p", rfl⟩ rfl
  exact h.2

/-! ### Step-engine lemmas: topological ordering under a dependency cycle -/

/-- One ordering pass only appends to the executed list. -/
lemma orderPass_eq_append (steps : List StepDef) :
    ∀ exec, ∃ t, orderPass steps exec = exec ++ t := by
  induction steps with
  | nil => intro exec; exact ⟨[], by simp [orderPass]⟩
  | cons s rest ih =>
    intro exec
    unfold orderPass at ih ⊢
    simp only [List.foldl_cons]
    by_cases h1 : s.name ∈ exec
    · simpa [h1] using ih exec
    · by_cases h2 : (s.depends_on.all fun dep => decide (dep ∈ exec)) = true
      · obtain ⟨t, ht⟩ := ih (exec ++ [s.name])
        refine ⟨s.name :: t, ?_⟩
        rw [if_neg h1, if_pos h2, ht]
        simp
      · simpa [h1, h2] using ih exec

/-- Everything in the output of an ordering pass was already executed or is
the name of some step. -/
lemma orderPass_mem (steps : List StepDef) :
    ∀ exec a, a ∈ orderPass steps exec →
      a ∈ exec ∨ a ∈ steps.map (fun s => s.name) := by
  induction steps with
  | nil =>
    intro exec a h
    exact Or.inl (by simpa [orderPass] using h)
  | cons s rest ih =>
    intro exec a h
    unfold orderPass at ih h
    simp only [List.foldl_cons] at h
    by_cases h1 : s.name ∈ exec
    · rcases ih exec a (by simpa [h1] using h) with h3 | h3
      · exact Or.inl h3
      · exact Or.inr (by simp [h3])
    · by_cases h2 : (s.depends_on.all fun dep => decide (dep ∈ exec)) = true
      · rcases ih (exec ++ [s.name]) a (by simpa [h1, h2] using h) with h3 | h3
        · rcases List.mem_append.mp h3 with h4 | h4
          · exact Or.inl h4
          · exact Or.inr (by simp at h4; simp [h4])
        · exact Or.inr (by simp [h3])
      · rcases ih exec a (by simpa [h1, h2] using h) with h3 | h3
        · exact Or.inl h3
        · exact Or.inr (by simp [h3])

/-- An ordering pass preserves distinctness of the executed list. -/
lemma orderPass_nodup (steps : List StepDef) :
    ∀ exec, exec.Nodup → (orderPass steps exec).Nodup := by
  induction steps with
  | nil => intro exec h; simpa [orderPass] using h
  | cons s rest ih =>
    intro exec h
    unfold orderPass at ih ⊢
    simp only [List.foldl_cons]
    by_cases h1 : s.name ∈ exec
    · simpa [h1] using ih exec h
    · by_cases h2 : (s.depends_on.all fun dep => decide (dep ∈ exec)) = true
      · have h3 : (exec ++ [s.name]).Nodup := by simp [List.nodup_append, h, h1]
        simpa [h1, h2] using ih (exec ++ [s.name]) h3
      · simpa [h1, h2] using ih exec h

/-- Members of a set in which every element has a dependency inside the set
are never appended by an ordering pass. -/
lemma orderPass_cycle_inv (C : List String) (steps : List StepDef)
    (hcy : ∀ s ∈ steps, s.name ∈ C → ∃ b ∈ C, b ∈ s.depends_on) :
    ∀ exec, (∀ a ∈ C, a ∉ exec) → ∀ a ∈ C, a ∉ orderPass steps exec := by
  induction steps with
  | nil =>
    intro exec hinv a ha
    simpa [orderPass] using hinv a ha
  | cons s rest ih =>
    intro exec hinv a ha
    have hcyrest : ∀ x ∈ rest, x.name ∈ C → ∃ b ∈ C, b ∈ x.depends_on :=
      fun x hx => hcy x (by simp [hx])
    unfold orderPass at ih ⊢
    simp only [List.foldl_cons]
    by_cases h1 : s.name ∈ exec
    · simpa [h1] using ih hcyrest exec hinv a ha
    · by_cases h2 : (s.depends_on.all fun dep => decide (dep ∈ exec)) = true
      · by_cases h3 : s.name ∈ C
        · obtain ⟨b, hbC, hbd⟩ := hcy s (by simp) h3
          have hb : b ∈ exec :=
            of_decide_eq_true (List.all_eq_true.mp h2 b hbd)
          exact absurd hb (hinv b hbC)
        · have hinv2 : ∀ x ∈ C, x ∉ exec ++ [s.name] := by
            intro x hx
            simp only [List.mem_append, List.mem_singleton]
            rintro (hmem | heq)
            · exact hinv x hx hmem
            · exact h3 (heq ▸ hx)
          simpa [h1, h2] using ih hcyrest (exec ++ [s.name]) hinv2 a ha
      · simpa [h1, h2] using ih hcyrest exec hinv a ha

/-- A distinct executed list drawn from the step names but missing one of
them is strictly shorter than the name list. -/
lemma length_lt_of_missing {exec names : List String} (hnd : names.Nodup)
    (hexnd : exec.Nodup) (hsub : ∀ a ∈ exec, a ∈ names) {c0 : String}
    (hc0 : c0 ∈ names) (hc0ex : c0 ∉ exec) : exec.length < names.length := by
  have h1 : exec.toFinset ⊆ names.toFinset.erase c0 := by
    intro x hx
    rw [List.mem_toFinset] at hx
    rw [Finset.mem_erase]
    exact ⟨fun he => hc0ex (he ▸ hx), List.mem_toFinset.mpr (hsub x hx)⟩
  have h2 := Finset.card_le_card h1
  rw [List.toFinset_card_of_nodup hexnd,
    Finset.card_erase_of_mem (List.mem_toFinset.mpr hc0),
    List.toFinset_card_of_nodup hnd] at h2
  have h3 : 0 < names.length := List.length_pos.mpr (List.ne_nil_of_mem hc0)
  omega

/-- Under distinct step names and a nonempty dependency-closed set of step
names, the ordering loop always raises the cyclic-dependency error. -/
lemma orderLoop_error_of_cycle (steps : List StepDef) (C : List String)
    (hnd : (steps.map (fun s => s.name)).Nodup) (hCne : C ≠ [])
    (hCsub : ∀ a ∈ C, a ∈ steps.map (fun s => s.name))
    (hcy : ∀ s ∈ steps, s.name ∈ C → ∃ b ∈ C, b ∈ s.depends_on) :
    ∀ n exec, steps.length - exec.length = n →
      (∀ a ∈ C, a ∉ exec) → exec.Nodup →
      (∀ a ∈ exec, a ∈ steps.map (fun s => s.name)) →
      orderLoop steps exec = .error cyclicDepMsg := by
  intro n
  induction n using Nat.strong_induction_on with
  | _ n ih =>
    intro exec hn hinv hexnd hsub
    obtain ⟨c0, hc0⟩ : ∃ c0, c0 ∈ C := by
      cases C with
      | nil => exact absurd rfl hCne
      | cons x _ => exact ⟨x, by simp⟩
    have hlt : exec.length < steps.length := by
      have h := length_lt_of_missing hnd hexnd hsub (hCsub c0 hc0) (hinv c0 hc0)
      simpa using h
    rw [orderLoop]
    rw [dif_pos hlt]
    by_cases hpro : exec.length < (orderPass steps exec).length
    · rw [dif_pos hpro]
      exact ih (steps.length - (orderPass steps exec).length) (by omega)
        (orderPass steps exec) rfl
        (orderPass_cycle_inv C steps hcy exec hinv)
        (orderPass_nodup steps exec hexnd)
        (fun a ha => (orderPass_mem steps exec a ha).elim (hsub a) id)
    · rw [dif_neg hpro]

/-- `get_step_execution_order` raises the cyclic-dependency error whenever a
dependency-closed nonempty set of step names exists. -/
lemma execution_order_error_of_cycle (steps : List StepDef) (C : List String)
    (hnd : (steps.map (fun s => s.name)).Nodup) (hCne : C ≠ [])
    (hCsub : ∀ a ∈ C, a ∈ steps.map (fun s => s.name))
    (hcy : ∀ s ∈ steps, s.name ∈ C → ∃ b ∈ C, b ∈ s.depends_on) :
    get_step_execution_order steps = .error cyclicDepMsg :=
  orderLoop_error_of_cycle steps C hnd hCne hCsub hcy steps.length [] rfl
    (by simp) List.nodup_nil (by simp)

/-- With distinct step names, looking a step up by its own name finds it. -/
lemma lookup_self_of_nodup (steps : List StepDef)
    (hnd : (steps.map (fun s => s.name)).Nodup) (s : StepDef) (hs : s ∈ steps) :
    steps.find? (fun x => x.name == s.name) = some s := by
  induction steps with
  | nil => cases hs
  | cons x rest ih =>
    simp only [List.map_cons, List.nodup_cons] at hnd
    rcases List.mem_cons.mp hs with h | h
    · subst h
      simp [List.find?]
    · have hne : (x.name == s.name) = false := by
        simp only [beq_eq_false_iff_ne, ne_eq]
        intro he
        exact hnd.1 (he ▸ List.mem_map_of_mem (fun s => s.name) h)
      rw [List.find?_cons, hne]
      exact ih hnd.2 h

/-- **C6**: for every workflow (with distinct step names) whose `depends_on`
relation contains a cycle — a nonempty list of step names each of which
resolves to a step whose dependencies include the cyclically next name — the
engine fails fast: the run result has status FAILED with an `orchestrator`
errors entry carrying the circular-dependency message, and no step ever
leaves PENDING (in particular none enters RUNNING). -/
theorem C6_cyclic_dependency_fails_fast (steps : List StepDef)
    (c : List String) (hnd : (steps.map (fun s => s.name)).Nodup)
    (hc : c ≠ [])
    (hcyc : ∀ i : Fin c.length, ∃ s,
      steps.find? (fun x => x.name == c.get i) = some s
        ∧ c.get (nextIdx i) ∈ s.depends_on) :
    (execute_workflow steps).1.status = .failed
    ∧ ("orchestrator", cyclicDepMsg) ∈ (execute_workflow steps).1.errors
    ∧ ∀ sr ∈ (execute_workflow steps).2, sr.status = .pending := by
  have hCsub : ∀ a ∈ c, a ∈ steps.map (fun s => s.name) := by
    intro a ha
    obtain ⟨i, hi⟩ := List.mem_iff_get.mp ha
    obtain ⟨s, hfind, _⟩ := hcyc i
    have h1 : s ∈ steps := List.mem_of_find?_eq_some hfind
    have h2 := List.find?_some hfind
    simp only [beq_iff_eq] at h2
    rw [← hi, ← h2]
    exact List.mem_map_of_mem (fun s => s.name) h1
  have hcy : ∀ s ∈ steps, s.name ∈ c → ∃ b ∈ c, b ∈ s.depends_on := by
    intro s hs hsc
    obtain ⟨i, hi⟩ := List.mem_iff_get.mp hsc
    obtain ⟨s2, hfind, hdep⟩ := hcyc i
    have hself : steps.find? (fun x => x.name == c.get i) = some s := by
      rw [hi]
      exact lookup_self_of_nodup steps hnd s hs
    rw [hself] at hfind
    injection hfind with hss
    exact ⟨c.get (nextIdx i), List.get_mem c _ _, hss ▸ hdep⟩
  have horder : get_step_execution_order steps = .error cyclicDepMsg :=
    execution_order_error_of_cycle steps c hnd hc hCsub hcy
  refine ⟨?_, ?_, ?_⟩
  · simp only [execute_workflow, horder]
  · simp only [execute_workflow, horder]
    simp
  · simp only [execute_workflow, horder]
    intro sr hsr
    simp only [List.mem_map] at hsr
    obtain ⟨s, _, hs⟩ := hsr
    rw [← hs]

/-- Witness for C6 at the concrete two-step workflow A→B, B→A. -/
theorem C6_cyclic_dependency_fails_fast_witness :
    (execute_workflow cyclicSteps).1.status = .failed
    ∧ ("orchestrator", cyclicDepMsg) ∈ (execute_workflow cyclicSteps).1.errors := by
  have h := C6_cyclic_dependency_fails_fast cyclicSteps ["A", "B"]
    (by decide) (by decide) ?_
  · exact ⟨h.1, h.2.1⟩
  · intro i
    fin_cases i
    · exact ⟨_, rfl, by decide⟩
    · exact ⟨_, rfl, by decide⟩

/-- **C1**: for every workflow execution of the step engine, the final run
status is FAILED iff some required step ended FAILED or the ordering raised
an orchestrator-level error (which is then recorded in the errors map under
`orchestrator`); otherwise the status is COMPLETED — and those are the only
two final statuses. -/
theorem C1_failed_iff_required_failure_or_orchestrator_error
    (steps : List StepDef) :
    ((execute_workflow steps).1.status = .failed ↔
      ((∃ sr ∈ (execute_workflow steps).2,
          sr.status = .failed ∧ sr.sdef.required = true)
        ∨ ∃ e, get_step_execution_order steps = .error e))
    ∧ (∀ e, get_step_execution_order steps = .error e →
        ("orchestrator", e) ∈ (execute_workflow steps).1.errors)
    ∧ ((execute_workflow steps).1.status = .completed
        ∨ (execute_workflow steps).1.status = .failed) := by
  rcases horder : get_step_execution_order steps with e | order
  · refine ⟨?_, ?_, ?_⟩
    · simp only [execute_workflow, horder]
      constructor
      · intro _
        exact Or.inr ⟨e, rfl⟩
      · intro _
        trivial
    · intro e2 h2
      injection h2 with he
      subst he
      simp [execute_workflow, horder]
    · simp [execute_workflow, horder]
  · rcases hrun : runOrder order (steps.map fun s => ({ sdef := s } : StepRun))
        0 0 with ⟨fs, cc, ff⟩
    have hred : execute_workflow steps
        = ({ status :=
              if 0 < fs.countP
                  (fun sr => decide (sr.status = .failed ∧ sr.sdef.required = true))
              then WStatus.failed else WStatus.completed,
             steps_completed := cc, steps_failed := ff,
             total_steps := steps.length,
             errors := fs.filterMap
               (fun sr => sr.error.map (fun er => (sr.sdef.name, er))) }, fs) := by
      simp only [execute_workflow, horder, hrun]
    refine ⟨?_, ?_, ?_⟩
    · rw [hred]
      by_cases hcp : 0 < fs.countP
          (fun sr => decide (sr.status = .failed ∧ sr.sdef.required = true))
      · rw [if_pos hcp]
        constructor
        · intro _
          obtain ⟨sr, hmem, hp⟩ := List.countP_pos_iff.mp hcp
          exact Or.inl ⟨sr, hmem, of_decide_eq_true hp⟩
        · intro _
          rfl
      · rw [if_neg hcp]
        constructor
        · intro habs
          cases habs
        · rintro (⟨sr, hmem, hp⟩ | ⟨e, he⟩)
          · exact absurd (List.countP_pos_iff.mpr
              ⟨sr, hmem, decide_eq_true hp⟩) hcp
          · exact absurd he (by simp)
    · intro e2 h2
      exact absurd h2 (by simp)
    · rw [hred]
      by_cases hcp : 0 < fs.countP
          (fun sr => decide (sr.status = .failed ∧ sr.sdef.required = true))
      · rw [if_pos hcp]
        exact Or.inr rfl
      · rw [if_neg hcp]
        exact Or.inl rfl

/-- Witness for C1 at the concrete cyclic workflow: the inner implication is
discharged with the cyclic-dependency ordering error, giving the recorded
`orchestrator` error entry. -/
theorem C1_failed_iff_required_failure_or_orchestrator_error_witness :
    ("orchestrator", cyclicDepMsg) ∈ (execute_workflow cyclicSteps).1.errors := by
  have horder : get_step_execution_order cyclicSteps = .error cyclicDepMsg := by
    apply execution_order_error_of_cycle cyclicSteps ["A", "B"] (by decide)
      (by decide) (by decide)
    intro s hs hsc
    fin_cases hs
    · exact ⟨"B", by decide, by decide⟩
    · exact ⟨"A", by decide, by decide⟩
  exact (C1_failed_iff_required_failure_or_orchestrator_error cyclicSteps).2.1
    cyclicDepMsg horder
